import Mathlib

/-!
Shallow embedding of the `motiondetect` repository sources:
  * `src/dhtmonitor.py` — the sensor acquisition/delivery loop;
  * `src/mprofi_api_client/connector.py` — the SMS REST client.

Machine floats of the Python source are modelled as rationals; Python 2
`round(x, 1)` is round-half-away-from-zero at one decimal place.  The side
effects of one loop iteration (HTTP request, MQTT publish, logger calls,
sleep, the bare-except print) are recorded as an explicit event trace.
-/

namespace DHTMonitor

/-- Python 2 `round(x, 0)` as an integer: round half away from zero. -/
def roundHalfAwayZ (x : ℚ) : ℤ :=
  if 0 ≤ x then ⌊x + 1/2⌋ else -⌊-x + 1/2⌋

/-- Python 2 `round(x, 1)` over rationals: round half away from zero at the
first decimal place. -/
def pyRound1 (q : ℚ) : ℚ := (roundHalfAwayZ (10 * q) : ℚ) / 10

/-- Decimal digit characters of a natural number, accumulator style (the
rendering performed by Python `str` on a nonnegative integer part).  The
fuel argument bounds the recursion; `fuel = n` always suffices. -/
def natDigitsGo : Nat → Nat → List Char → List Char
  | 0, _, acc => acc
  | fuel + 1, n, acc =>
    if n < 10 then Nat.digitChar n :: acc
    else natDigitsGo fuel (n / 10) (Nat.digitChar (n % 10) :: acc)

/-- Decimal digit characters of a natural number. -/
def natStr (n : Nat) : List Char := natDigitsGo (n + 1) n []

/-- Decimal rendering of an integer number of tenths: sign, integer part,
a dot, and the single tenths digit (the form Python 2 `str` gives a float
that is an exact multiple of one tenth in the sensor range). -/
def tenthsRender (n : ℤ) : List Char :=
  (if n < 0 then ['-'] else []) ++
    natStr (n.natAbs / 10) ++ ['.'] ++ [Nat.digitChar (n.natAbs % 10)]

/-- The string `str(round(q, 1))` computed by `getSensorData` in
`src/dhtmonitor.py` line 13.  (The float artefact `-0.0` collapses to
`0.0` here, since rationals have no signed zero; this does not affect any
digit counting.) -/
def strRound1 (q : ℚ) : String :=
  String.mk (tenthsRender (roundHalfAwayZ (10 * q)))

/-- The Python exception raised when `round` is applied to `None`. -/
inductive PyError
  | typeError
deriving DecidableEq, Repr

/-- One formatted reading: the pair of strings returned by `getSensorData`. -/
structure Reading where
  rh : String
  t : String
deriving DecidableEq, Repr

/-- `getSensorData(pin)` of `src/dhtmonitor.py` lines 10-13.  The hardware
read `Adafruit_DHT.read_retry` either yields a numeric pair or, after its
internal retries are exhausted, the pair `(None, None)`; the latter is the
`none` case, in which `round(RH, 1)` raises `TypeError`. -/
def getSensorData (readResult : Option (ℚ × ℚ)) : Except PyError Reading :=
  match readResult with
  | none => Except.error PyError.typeError
  | some (rh, t) => Except.ok ⟨strRound1 rh, strRound1 t⟩

/-- Configuration values star-imported from `dhtmonitor_conf` (that module is
not part of the sources; per the spec these are process-configuration inputs:
endpoint base URL, broker host/port/credentials). -/
structure Conf where
  thingspeak_baseURL : String
  mqtt_server : String
  mqtt_port : Nat
  mqtt_uname : String
  mqtt_pw : String
deriving DecidableEq, Repr

/-- The outcome of the four hardware reads of one cycle, one per configured
pin (2, 3, 4, 17 in `main`, lines 21-24): each is a numeric
(humidity, temperature) pair, or `none` when `read_retry` exhausted its
retries and returned `(None, None)`. -/
structure CycleInput where
  pin2 : Option (ℚ × ℚ)
  pin3 : Option (ℚ × ℚ)
  pin4 : Option (ℚ × ℚ)
  pin17 : Option (ℚ × ℚ)
deriving DecidableEq, Repr

/-- Classification of a `urlopen` failure, matching the except clauses of
`main` lines 37-45: `urllib2.HTTPError` (remote rejected, carries a status
code), `urllib2.URLError` (connection unreachable, carries a reason),
`httplib.HTTPException` (malformed response), or any other exception. -/
inductive LogFailure
  | httpError (code : Nat)
  | urlError (reason : String)
  | httpException
  | generic (txt : String)
deriving DecidableEq, Repr

/-- Behaviour of the two sinks during one cycle: whether the logging
request raises (and how it is classified), and whether the broker publish
raises (with the traceback text of the exception). -/
structure SinkEnv where
  logFail : Option LogFailure
  brokerFail : Option String
deriving DecidableEq, Repr

/-- One MQTT message tuple `(topic, payload, qos, retain)` as built in
`main` lines 29-35. -/
structure Msg where
  topic : String
  payload : String
  qos : Nat
  retain : Bool
deriving DecidableEq, Repr

/-- The `auth` dict passed to `publish.multiple` in `main` line 36. -/
structure Auth where
  username : String
  password : String
deriving DecidableEq, Repr

/-- Observable actions of one iteration of the `while True` loop:
the logging-endpoint HTTP request, the broker publish (with connection
parameters), a `checksLogger.error` call, the inter-cycle `sleep`, and the
`print` of the outer bare except clause. -/
inductive Event
  | urlopenCall (url : String)
  | publishCall (msgs : List Msg) (hostname : String) (port : Nat) (auth : Auth)
  | logErrorCall (txt : String)
  | sleepCall (seconds : Nat)
  | printErrorCall
deriving DecidableEq, Repr

/-- The ThingSpeak request URL of `main` lines 26-27: the configured base
URL followed by the eight positional fields, `%`-interpolated in the order
`(T, RH, T2, RH2, T3, RH3, T4, RH4)`. -/
def fieldURL (conf : Conf) (T RH T2 RH2 T3 RH3 T4 RH4 : String) : String :=
  conf.thingspeak_baseURL ++ "&field1=" ++ T ++ "&field2=" ++ RH ++
    "&field3=" ++ T2 ++ "&field4=" ++ RH2 ++ "&field5=" ++ T3 ++
    "&field6=" ++ RH3 ++ "&field7=" ++ T4 ++ "&field8=" ++ RH4

/-- The `msgs` list of `main` lines 29-35, verbatim: six `(topic, value,
qos 0, retain True)` tuples. -/
def cycleMsgs (T T2 RH2 T3 RH3 T4 : String) : List Msg :=
  [⟨"/temperature/garden", T, 0, true⟩,
   ⟨"/temperature/taras", T2, 0, true⟩,
   ⟨"/hummidity/taras", RH2, 0, true⟩,
   ⟨"/temperature/loundry", T3, 0, true⟩,
   ⟨"/hummidity/loundry", RH3, 0, true⟩,
   ⟨"/temperature/front", T4, 0, true⟩]

/-- Text passed to `checksLogger.error` by the except clause that catches a
given `urlopen` failure (`main` lines 37-45). -/
def logFailureText : LogFailure → String
  | .httpError code => "HTTPError = " ++ toString code
  | .urlError reason => "URLError = " ++ reason
  | .httpException => "HTTPException"
  | .generic txt => "generic exception: " ++ txt

/-- The inner `try` block of `main` lines 25-45, entered with the eight
formatted strings already in hand.  `urlopen` and `publish.multiple` sit in
the same `try` block (the publish lines are indented with two tabs, which
Python 2 reads as 16 columns): if `urlopen` raises, control jumps to the
except clauses and the publish is never reached; if the publish raises, the
exception is caught by the `except Exception` clause and logged as a
generic exception.  The names `httplib` and `checksLogger` are provided by
the star-imported `dhtmonitor_conf` module, so the except-clause chain is
modelled as well-formed per the failure table of the spec. -/
def innerTry (conf : Conf) (env : SinkEnv)
    (T RH T2 RH2 T3 RH3 T4 RH4 : String) : List Event :=
  let url := fieldURL conf T RH T2 RH2 T3 RH3 T4 RH4
  match env.logFail with
  | some e => [Event.urlopenCall url, Event.logErrorCall (logFailureText e)]
  | none =>
    let msgs := cycleMsgs T T2 RH2 T3 RH3 T4
    let pub := Event.publishCall msgs conf.mqtt_server conf.mqtt_port
      ⟨conf.mqtt_uname, conf.mqtt_pw⟩
    match env.brokerFail with
    | some txt =>
      [Event.urlopenCall url, pub, Event.logErrorCall ("generic exception: " ++ txt)]
    | none => [Event.urlopenCall url, pub]

/-- The four sequential acquisitions of `main` lines 21-24; the first
raising call aborts the whole sequence (there is no per-channel recovery). -/
def acquireAll (inp : CycleInput) : Except PyError (List Reading) := do
  let r1 ← getSensorData inp.pin2
  let r2 ← getSensorData inp.pin3
  let r3 ← getSensorData inp.pin4
  let r4 ← getSensorData inp.pin17
  return [r1, r2, r3, r4]

/-- One full iteration of the `while True` loop of `main` lines 19-48,
outer `try` included: an exception escaping the inner region reaches the
bare `except`, which prints and falls through to the next iteration;
otherwise the iteration ends with `sleep(600)`. -/
def cycleBody (conf : Conf) (inp : CycleInput) (env : SinkEnv) : List Event :=
  match getSensorData inp.pin2 with
  | .error _ => [Event.printErrorCall]
  | .ok r1 =>
    match getSensorData inp.pin3 with
    | .error _ => [Event.printErrorCall]
    | .ok r2 =>
      match getSensorData inp.pin4 with
      | .error _ => [Event.printErrorCall]
      | .ok r3 =>
        match getSensorData inp.pin17 with
        | .error _ => [Event.printErrorCall]
        | .ok r4 =>
          innerTry conf env r1.t r1.rh r2.t r2.rh r3.t r3.rh r4.t r4.rh ++
            [Event.sleepCall 600]

/-- The `while True` loop run over a given schedule of per-cycle inputs and
sink behaviours, producing the concatenated event trace. -/
def loopRun (conf : Conf) (steps : List (CycleInput × SinkEnv)) : List Event :=
  match steps with
  | [] => []
  | s :: rest => cycleBody conf s.1 s.2 ++ loopRun conf rest

/-- Truth of `Except.ok`-ness, as a boolean. -/
def exceptIsOk {ε α : Type} : Except ε α → Bool
  | .ok _ => true
  | .error _ => false

/-- Recognizer for broker-publish events. -/
def isPublish : Event → Bool
  | .publishCall _ _ _ _ => true
  | _ => false

/-- Recognizer for sleep events. -/
def isSleep : Event → Bool
  | .sleepCall _ => true
  | _ => false

/-- Number of occurrences of the decimal point in a string. -/
def dotCount (s : String) : Nat := s.data.count '.'

/-- Number of characters after the last decimal point of a string. -/
def fracDigits (s : String) : Nat :=
  (s.data.reverse.takeWhile (fun c => c != '.')).length

/-- Concrete configuration used by witnesses and counterexamples. -/
def conf0 : Conf :=
  ⟨"https://api.thingspeak.com/update?api_key=KEY", "mqtt.example.org", 1883,
    "monitor", "secret"⟩

/-- A cycle in which all four hardware reads succeed. -/
def inpAllOk : CycleInput :=
  ⟨some (50, 20), some (51, 21), some (52, 22), some (53, 23)⟩

/-- A cycle in which the second hardware read fails after its retries. -/
def inpOneFail : CycleInput :=
  ⟨some (50, 20), none, some (52, 22), some (53, 23)⟩

/-- Both sinks behave. -/
def envOk : SinkEnv := ⟨none, none⟩

/-- The logging request fails with connection refused (`urllib2.URLError`);
the broker would behave. -/
def envLogFail : SinkEnv :=
  ⟨some (LogFailure.urlError "connection refused"), none⟩

/-- The logging request succeeds; the broker publish raises. -/
def envBrokerFail : SinkEnv := ⟨none, some "socket timeout"⟩

end DHTMonitor

namespace MprofiApiClient

/-- One message dict of the connector payload.  `add_message` creates it
with the keys `recipient` and `message`; `send` may merge a `reference`
key into it (single-message path) and, on success, an `id` key from the
API response.  Absent keys are `none`. -/
structure Message where
  recipient : String
  message : String
  reference : Option String := none
  id : Option Nat := none
deriving DecidableEq, Repr

/-- The mutable state of `MprofiAPIConnector`: the token (baked into the
session headers) and the `payload` and `response` lists. -/
structure Connector where
  token : String
  payload : List Message
  response : List Message
deriving DecidableEq, Repr

/-- Class attribute `url_base`. -/
def url_base : String := "https://api.mprofi.pl"

/-- Class attribute `api_version`. -/
def api_version : String := "1.0"

/-- Class attribute `send_endpoint`. -/
def send_endpoint : String := "send"

/-- Class attribute `sendbulk_endpoint`. -/
def sendbulk_endpoint : String := "sendbulk"

/-- The `full_url` built in `send`: `'/'.join([url_base, api_version,
endpoint, ""])`. -/
def joinURL (endpoint : String) : String :=
  url_base ++ "/" ++ api_version ++ "/" ++ endpoint ++ "/"

/-- The exceptions `send` can raise: `ValueError` on an empty payload,
`MprofiConnectionError` on a connection failure or an undecodable response
body, `MprofiAuthError` on a non-2xx HTTP status, and Python `KeyError`
when the decoded JSON lacks the key the response extractor reads. -/
inductive SendErr
  | valueError
  | mprofiConnectionError
  | mprofiAuthError
  | keyError
deriving DecidableEq, Repr

/-- One entry of the response JSON that gets merged into a sent message:
the per-message `id` the API returns. -/
structure MsgUpdate where
  id : Nat
deriving DecidableEq, Repr

/-- The decoded response JSON, as far as `send` inspects it: an `id` key
(single-message endpoint) or a `result` key holding a list (bulk
endpoint); a missing key raises `KeyError` at extraction time. -/
structure RespJson where
  id : Option Nat := none
  result : Option (List MsgUpdate) := none
deriving DecidableEq, Repr

/-- Behaviour of the HTTP POST issued by `send`: the connection fails
(`requests` raises `ConnectionError`), the response status is non-2xx
(`raise_for_status` raises `HTTPError`), the body does not decode as JSON
(`json.JSONDecodeError`), or a JSON document comes back. -/
inductive HttpOutcome
  | connError
  | httpError
  | badJson
  | ok (respJson : RespJson)
deriving DecidableEq, Repr

/-- True on the three outcomes in which the POST round trip raises. -/
def HttpOutcome.isFail : HttpOutcome → Bool
  | .connError => true
  | .httpError => true
  | .badJson => true
  | .ok _ => false

/-- The body handed to `session.post`: the single message dict itself, or
the `{messages: [...], reference: ...}` wrapper dict of the bulk path. -/
inductive FullPayload
  | single (m : Message)
  | bulk (messages : List Message) (reference : Option String)
deriving DecidableEq, Repr

/-- `sent_message.update(response_message)` for one message: merging the
`{id: n}` dict sets the `id` key. -/
def updateId (m : Message) (u : MsgUpdate) : Message := { m with id := some u.id }

/-- The `for ... in zip(self.response, extract_from_response(...))` loop:
the shorter list bounds the updates; surplus messages stay as they are. -/
def zipUpdate : List Message → List MsgUpdate → List Message
  | m :: ms, u :: us => updateId m u :: zipUpdate ms us
  | ms, [] => ms
  | [], _ :: _ => []

/-- `extract_from_response` of the single-message path:
`lambda r: [{id: r[id]}]`; a missing `id` key raises `KeyError`. -/
def extractSingle (r : RespJson) : Except SendErr (List MsgUpdate) :=
  match r.id with
  | some i => Except.ok [⟨i⟩]
  | none => Except.error SendErr.keyError

/-- `extract_from_response` of the bulk path: `lambda r: r[result]`; a
missing `result` key raises `KeyError`. -/
def extractBulk (r : RespJson) : Except SendErr (List MsgUpdate) :=
  match r.result with
  | some us => Except.ok us
  | none => Except.error SendErr.keyError

/-- What one call to `send` did: the value returned or exception raised,
the connector state afterwards, and the POST issued (endpoint URL and
body), if any. -/
structure SendOutcome where
  result : Except SendErr RespJson
  state : Connector
  request : Option (String × FullPayload)
deriving Repr

/-- `add_message` of `connector.py` lines 120-140: rejects empty strings,
otherwise appends the two-key dict to `payload`. -/
def add_message (c : Connector) (recipient message : String) :
    Except SendErr Connector :=
  if recipient = "" then Except.error SendErr.valueError
  else if message = "" then Except.error SendErr.valueError
  else Except.ok { c with payload :=
    c.payload ++ [{ recipient := recipient, message := message }] }

/-- The tail of `send` after `full_payload` is built (lines 187-222): the
POST with its three failure translations, then on HTTP success the state
mutation `self.response = self.payload; self.payload = []`, then the
zip/update loop, whose extractor runs only at that point. -/
def afterPost (c : Connector) (url : String) (fp : FullPayload)
    (extract : RespJson → Except SendErr (List MsgUpdate))
    (env : HttpOutcome) : SendOutcome :=
  match env with
  | .connError => ⟨Except.error SendErr.mprofiConnectionError, c, some (url, fp)⟩
  | .httpError => ⟨Except.error SendErr.mprofiAuthError, c, some (url, fp)⟩
  | .badJson => ⟨Except.error SendErr.mprofiConnectionError, c, some (url, fp)⟩
  | .ok rj =>
    let c2 : Connector := { c with response := c.payload, payload := [] }
    match extract rj with
    | .error e => ⟨Except.error e, c2, some (url, fp)⟩
    | .ok us => ⟨Except.ok rj, { c2 with response := zipUpdate c2.response us },
        some (url, fp)⟩

/-- `send` of `connector.py` lines 142-222.  With exactly one message the
`send` endpoint is used and `full_payload` is `self.payload[0]` itself, so
`full_payload.update({reference: ...})` also mutates the message stored in
`self.payload`; with more than one message the `sendbulk` endpoint is used
and the reference goes into a fresh wrapper dict; with none, `ValueError`
is raised before any request. -/
def send (c : Connector) (reference : Option String) (env : HttpOutcome) :
    SendOutcome :=
  match c.payload with
  | [] => ⟨Except.error SendErr.valueError, c, none⟩
  | [m] =>
    let m2 := match reference with
      | some r => { m with reference := some r }
      | none => m
    let c1 : Connector := { c with payload := [m2] }
    afterPost c1 (joinURL send_endpoint) (FullPayload.single m2) extractSingle env
  | ms =>
    afterPost c (joinURL sendbulk_endpoint) (FullPayload.bulk ms reference)
      extractBulk env

/-- The payload as it stands when the POST of `send` is issued: the stored
messages, with the reference merged into the single stored message by the
aliasing described at `send`. -/
def mergedPayload (c : Connector) (reference : Option String) : List Message :=
  match c.payload, reference with
  | [m], some r => [{ m with reference := some r }]
  | p, _ => p

/-- The response extractor `send` installs for the current payload shape. -/
def extractFor (c : Connector) (rj : RespJson) : Except SendErr (List MsgUpdate) :=
  match c.payload with
  | [_] => extractSingle rj
  | _ => extractBulk rj

/-- A message as `add_message` stores it. -/
def msgA : Message := { recipient := "111222333", message := "Welcome" }

/-- A second stored message. -/
def msgB : Message := { recipient := "444555666", message := "Hello" }

/-- A connector with an empty payload. -/
def connEmpty : Connector := ⟨"tok", [], []⟩

/-- A connector holding exactly one message. -/
def connOne : Connector := ⟨"tok", [msgA], []⟩

/-- A connector holding two messages. -/
def connTwo : Connector := ⟨"tok", [msgA, msgB], []⟩

/-- A well-formed bulk response JSON carrying two message ids. -/
def rjBulk : RespJson := { result := some [⟨7⟩, ⟨8⟩] }

end MprofiApiClient

namespace DHTMonitor

/-- When every hardware read of the cycle succeeds, the loop body is the
inner try block over the formatted readings followed by the sleep. -/
lemma cycleBody_ok (conf : Conf) (env : SinkEnv) (a b c d e f g h : ℚ) :
    cycleBody conf ⟨some (a, b), some (c, d), some (e, f), some (g, h)⟩ env =
      innerTry conf env (strRound1 b) (strRound1 a) (strRound1 d) (strRound1 c)
        (strRound1 f) (strRound1 e) (strRound1 h) (strRound1 g) ++
        [Event.sleepCall 600] := rfl

/-- When some hardware read of the cycle fails, the `TypeError` raised by
`round(None, 1)` reaches the outer bare except, which only prints. -/
lemma cycleBody_fail (conf : Conf) (env : SinkEnv) (inp : CycleInput)
    (hf : inp.pin2 = none ∨ inp.pin3 = none ∨ inp.pin4 = none ∨
      inp.pin17 = none) :
    cycleBody conf inp env = [Event.printErrorCall] := by
  obtain ⟨p2, p3, p4, p17⟩ := inp
  rcases p2 with _ | ⟨a, b⟩
  · rfl
  rcases p3 with _ | ⟨c, d⟩
  · rfl
  rcases p4 with _ | ⟨e, f⟩
  · rfl
  rcases p17 with _ | ⟨g, h⟩
  · rfl
  simp at hf

/-- The batch of a fully successful acquisition: one reading per pin, in
the fixed pin order 2, 3, 4, 17. -/
lemma acquireAll_ok (a b c d e f g h : ℚ) :
    acquireAll ⟨some (a, b), some (c, d), some (e, f), some (g, h)⟩ =
      Except.ok [⟨strRound1 a, strRound1 b⟩, ⟨strRound1 c, strRound1 d⟩,
        ⟨strRound1 e, strRound1 f⟩, ⟨strRound1 g, strRound1 h⟩] := rfl

/-- A failed read anywhere in the sequence aborts the whole acquisition
with the `TypeError`. -/
lemma acquireAll_fail (inp : CycleInput)
    (hf : inp.pin2 = none ∨ inp.pin3 = none ∨ inp.pin4 = none ∨
      inp.pin17 = none) :
    acquireAll inp = Except.error PyError.typeError := by
  obtain ⟨p2, p3, p4, p17⟩ := inp
  rcases p2 with _ | ⟨a, b⟩
  · rfl
  rcases p3 with _ | ⟨c, d⟩
  · rfl
  rcases p4 with _ | ⟨e, f⟩
  · rfl
  rcases p17 with _ | ⟨g, h⟩
  · rfl
  simp at hf

/-- Every iteration of the loop produces at least one event; the loop has
no exit path. -/
lemma cycleBody_ne_nil (conf : Conf) (inp : CycleInput) (env : SinkEnv) :
    cycleBody conf inp env ≠ [] := by
  obtain ⟨p2, p3, p4, p17⟩ := inp
  rcases p2 with _ | ⟨a, b⟩
  · simp [cycleBody, getSensorData]
  rcases p3 with _ | ⟨c, d⟩
  · simp [cycleBody, getSensorData]
  rcases p4 with _ | ⟨e, f⟩
  · simp [cycleBody, getSensorData]
  rcases p17 with _ | ⟨g, h⟩
  · simp [cycleBody, getSensorData]
  rw [cycleBody_ok]
  simp

end DHTMonitor

namespace DHTMonitor

/-- `Nat.digitChar` never yields a decimal point. -/
lemma digitChar_ne_dot (n : Nat) : Nat.digitChar n ≠ '.' := by
  match n with
  | 0 => decide
  | 1 => decide
  | 2 => decide
  | 3 => decide
  | 4 => decide
  | 5 => decide
  | 6 => decide
  | 7 => decide
  | 8 => decide
  | 9 => decide
  | 10 => decide
  | 11 => decide
  | 12 => decide
  | 13 => decide
  | 14 => decide
  | 15 => decide
  | k + 16 => exact (by decide : ('*' : Char) ≠ '.')

/-- The accumulator rendering adds only digit characters. -/
lemma natDigitsGo_no_dot (fuel : Nat) :
    ∀ (n : Nat) (acc : List Char), (∀ c ∈ acc, c ≠ '.') →
      ∀ c ∈ natDigitsGo fuel n acc, c ≠ '.' := by
  induction fuel with
  | zero => intro n acc hacc; exact hacc
  | succ fuel ih =>
    intro n acc hacc c hc
    rw [natDigitsGo] at hc
    split at hc
    · rcases List.mem_cons.1 hc with h | h
      · subst h; exact digitChar_ne_dot n
      · exact hacc c h
    · refine ih (n / 10) (Nat.digitChar (n % 10) :: acc) ?_ c hc
      intro x hx
      rcases List.mem_cons.1 hx with h | h
      · subst h; exact digitChar_ne_dot (n % 10)
      · exact hacc x h

/-- The decimal rendering of a natural number holds no decimal point. -/
lemma natStr_no_dot (n : Nat) : '.' ∉ natStr n := fun h =>
  natDigitsGo_no_dot (n + 1) n [] (by intro c hc; cases hc) '.' h rfl

/-- The rendering of a tenths count holds exactly one decimal point. -/
lemma count_dot_tenthsRender (n : ℤ) : (tenthsRender n).count '.' = 1 := by
  unfold tenthsRender
  rw [List.count_append, List.count_append, List.count_append]
  have h1 : (if n < 0 then ['-'] else []).count '.' = 0 := by
    split <;> decide
  have h2 : (natStr (n.natAbs / 10)).count '.' = 0 :=
    List.count_eq_zero.2 (natStr_no_dot _)
  have h3 : (['.'] : List Char).count '.' = 1 := by decide
  have h4 : ([Nat.digitChar (n.natAbs % 10)] : List Char).count '.' = 0 :=
    List.count_eq_zero.2 (by
      intro h
      rcases List.mem_singleton.1 h with h
      exact digitChar_ne_dot _ h.symm)
  omega

/-- Exactly the single tenths digit stands after the decimal point. -/
lemma takeWhile_tenthsRender (n : ℤ) :
    (tenthsRender n).reverse.takeWhile (fun c => c != '.') =
      [Nat.digitChar (n.natAbs % 10)] := by
  unfold tenthsRender
  have hd : (Nat.digitChar (n.natAbs % 10) != '.') = true := by
    simpa using digitChar_ne_dot (n.natAbs % 10)
  simp [List.takeWhile, hd]

end DHTMonitor

namespace DHTMonitor

/-- A floor-of-half-shifted value is within one half of the value. -/
lemma abs_floorHalf_sub (y : ℚ) : |(⌊y + 1/2⌋ : ℚ) - y| ≤ 1/2 := by
  have h1 := Int.floor_le (y + 1/2)
  have h2 := Int.lt_floor_add_one (y + 1/2)
  rw [abs_le]
  constructor <;> linarith

/-- Rounding half away from zero moves a value by at most one half. -/
lemma roundHalfAwayZ_close (x : ℚ) : |(roundHalfAwayZ x : ℚ) - x| ≤ 1/2 := by
  unfold roundHalfAwayZ
  split
  · exact abs_floorHalf_sub x
  · have h := abs_floorHalf_sub (-x)
    push_cast
    rw [show -(⌊-x + 1/2⌋ : ℚ) - x = -((⌊-x + 1/2⌋ : ℚ) - -x) by ring, abs_neg]
    exact h

/-- Rounding at the first decimal place moves a value by at most 1/20. -/
lemma pyRound1_close (q : ℚ) : |pyRound1 q - q| ≤ 1/20 := by
  have h := roundHalfAwayZ_close (10 * q)
  unfold pyRound1
  rw [abs_le] at h ⊢
  constructor <;> linarith

/-- Round half away from zero fixes the integers. -/
lemma roundHalfAwayZ_intCast (n : ℤ) : roundHalfAwayZ (n : ℚ) = n := by
  have h0 : ⌊(1/2 : ℚ)⌋ = 0 := by
    rw [Int.floor_eq_zero_iff]
    constructor <;> norm_num
  unfold roundHalfAwayZ
  split
  · rw [Int.floor_int_add, h0, add_zero]
  · rw [show (-(n : ℚ) + 1/2) = ((-n : ℤ) : ℚ) + 1/2 by push_cast; ring,
      Int.floor_int_add, h0, add_zero, neg_neg]

/-- The first-decimal rounding is idempotent, so the emitted string is the
rendering of the already-rounded value. -/
lemma strRound1_pyRound1 (q : ℚ) : strRound1 (pyRound1 q) = strRound1 q := by
  unfold strRound1
  have h : 10 * pyRound1 q = ((roundHalfAwayZ (10 * q) : ℤ) : ℚ) := by
    unfold pyRound1
    ring
  rw [h, roundHalfAwayZ_intCast]

end DHTMonitor

namespace DHTMonitor

/-- Shape of the inner try block when `urlopen` fails: the publish call is
never reached. -/
lemma innerTry_logFail (conf : Conf) (env : SinkEnv) (lf : LogFailure)
    (hl : env.logFail = some lf) (T RH T2 RH2 T3 RH3 T4 RH8 : String) :
    innerTry conf env T RH T2 RH2 T3 RH3 T4 RH8 =
      [Event.urlopenCall (fieldURL conf T RH T2 RH2 T3 RH3 T4 RH8),
       Event.logErrorCall (logFailureText lf)] := by
  unfold innerTry
  rw [hl]

/-- Shape of the inner try block when both sinks behave. -/
lemma innerTry_ok (conf : Conf) (env : SinkEnv)
    (hl : env.logFail = none) (hb : env.brokerFail = none)
    (T RH T2 RH2 T3 RH3 T4 RH8 : String) :
    innerTry conf env T RH T2 RH2 T3 RH3 T4 RH8 =
      [Event.urlopenCall (fieldURL conf T RH T2 RH2 T3 RH3 T4 RH8),
       Event.publishCall (cycleMsgs T T2 RH2 T3 RH3 T4) conf.mqtt_server
         conf.mqtt_port ⟨conf.mqtt_uname, conf.mqtt_pw⟩] := by
  unfold innerTry
  rw [hl, hb]

/-- Shape of the inner try block when the publish raises: the publish call
happens, then the generic except clause logs. -/
lemma innerTry_brokerFail (conf : Conf) (env : SinkEnv) (txt : String)
    (hl : env.logFail = none) (hb : env.brokerFail = some txt)
    (T RH T2 RH2 T3 RH3 T4 RH8 : String) :
    innerTry conf env T RH T2 RH2 T3 RH3 T4 RH8 =
      [Event.urlopenCall (fieldURL conf T RH T2 RH2 T3 RH3 T4 RH8),
       Event.publishCall (cycleMsgs T T2 RH2 T3 RH3 T4) conf.mqtt_server
         conf.mqtt_port ⟨conf.mqtt_uname, conf.mqtt_pw⟩,
       Event.logErrorCall ("generic exception: " ++ txt)] := by
  unfold innerTry
  rw [hl, hb]

/-- C6: for every numeric sensor pair, the acquisition returns the two
formatted strings; each has exactly one decimal point with exactly one
digit after it; the value behind the string is `round(x, 1)` — an integer
number of tenths within 1/20 of the raw value — and rendering the rounded
value again gives the same string. -/
theorem C6_format_one_decimal (rh t : ℚ) :
    getSensorData (some (rh, t)) = Except.ok ⟨strRound1 rh, strRound1 t⟩ ∧
    dotCount (strRound1 rh) = 1 ∧ fracDigits (strRound1 rh) = 1 ∧
    dotCount (strRound1 t) = 1 ∧ fracDigits (strRound1 t) = 1 ∧
    |pyRound1 rh - rh| ≤ 1/20 ∧ |pyRound1 t - t| ≤ 1/20 ∧
    (∃ k : ℤ, pyRound1 rh = (k : ℚ) / 10) ∧
    (∃ k : ℤ, pyRound1 t = (k : ℚ) / 10) ∧
    strRound1 (pyRound1 rh) = strRound1 rh ∧
    strRound1 (pyRound1 t) = strRound1 t := by
  refine ⟨rfl, count_dot_tenthsRender _, ?_, count_dot_tenthsRender _, ?_,
    pyRound1_close rh, pyRound1_close t,
    ⟨roundHalfAwayZ (10 * rh), rfl⟩, ⟨roundHalfAwayZ (10 * t), rfl⟩,
    strRound1_pyRound1 rh, strRound1_pyRound1 t⟩
  · unfold fracDigits strRound1
    rw [takeWhile_tenthsRender]
    rfl
  · unfold fracDigits strRound1
    rw [takeWhile_tenthsRender]
    rfl

end DHTMonitor

namespace DHTMonitor

/-- C1 (counterexample): with all four reads fine and the logging request
failing with connection refused — a classified error — the cycle reaches
the sleep but never makes the broker publish call. -/
theorem C1_counterexample :
    envLogFail.logFail = some (LogFailure.urlError "connection refused") ∧
    (cycleBody conf0 inpAllOk envLogFail).filter isPublish = [] ∧
    (cycleBody conf0 inpAllOk envLogFail).filter isSleep =
      [Event.sleepCall 600] :=
  ⟨rfl, rfl, rfl⟩

/-- C1 (amended): when acquisition succeeds and the logging-sink delivery
fails with any classified error, the broker publish of that same cycle is
skipped entirely — `urlopen` and `publish.multiple` share one try block —
while the failure is logged and the cycle still ends with the sleep. -/
theorem C1_log_failure_skips_broker (conf : Conf) (inp : CycleInput)
    (env : SinkEnv) (lf : LogFailure)
    (h2 : inp.pin2.isSome = true) (h3 : inp.pin3.isSome = true)
    (h4 : inp.pin4.isSome = true) (h17 : inp.pin17.isSome = true)
    (hl : env.logFail = some lf) :
    (cycleBody conf inp env).filter isPublish = [] ∧
    Event.logErrorCall (logFailureText lf) ∈ cycleBody conf inp env ∧
    (cycleBody conf inp env).getLast? = some (Event.sleepCall 600) := by
  obtain ⟨p2, p3, p4, p17⟩ := inp
  rcases p2 with _ | ⟨a, b⟩
  · simp at h2
  rcases p3 with _ | ⟨c, d⟩
  · simp at h3
  rcases p4 with _ | ⟨e, f⟩
  · simp at h4
  rcases p17 with _ | ⟨g, h⟩
  · simp at h17
  rw [cycleBody_ok, innerTry_logFail conf env lf hl]
  exact ⟨rfl, List.mem_cons_of_mem _ (List.mem_cons_self _ _), rfl⟩

/-- C1 (witness): the amended theorem applied to the concrete fixture. -/
theorem C1_witness :
    (cycleBody conf0 inpAllOk envLogFail).filter isPublish = [] ∧
    Event.logErrorCall
        (logFailureText (LogFailure.urlError "connection refused")) ∈
      cycleBody conf0 inpAllOk envLogFail ∧
    (cycleBody conf0 inpAllOk envLogFail).getLast? =
      some (Event.sleepCall 600) :=
  C1_log_failure_skips_broker conf0 inpAllOk envLogFail
    (LogFailure.urlError "connection refused") rfl rfl rfl rfl rfl

/-- C2 (counterexample): when the hardware read fails after its internal
retries — `read_retry` returns `(None, None)` — `getSensorData` does not
return a Reading at all: `round(None, 1)` raises `TypeError`. -/
theorem C2_counterexample :
    exceptIsOk (getSensorData none) = false ∧
    getSensorData none = Except.error PyError.typeError :=
  ⟨rfl, rfl⟩

/-- C2 (amended): a successful read yields a formatted Reading, but a read
that fails after the internal retries makes the acquisition raise
`TypeError` past its boundary; the exception aborts the cycle and is
caught only by the top-level bare except. -/
theorem C2_acquire_raises_on_bad_read :
    (∀ rh t : ℚ,
      getSensorData (some (rh, t)) =
        Except.ok ⟨strRound1 rh, strRound1 t⟩) ∧
    getSensorData none = Except.error PyError.typeError ∧
    (∀ (conf : Conf) (env : SinkEnv) (inp : CycleInput), inp.pin2 = none →
      cycleBody conf inp env = [Event.printErrorCall]) :=
  ⟨fun _ _ => rfl, rfl,
    fun conf env inp h => cycleBody_fail conf env inp (Or.inl h)⟩

/-- C2 (witness): the amended theorem at a concrete read outcome. -/
theorem C2_witness :
    getSensorData (some ((50 : ℚ), (20 : ℚ))) =
      Except.ok ⟨strRound1 50, strRound1 20⟩ ∧
    cycleBody conf0 ⟨none, none, none, none⟩ envOk =
      [Event.printErrorCall] :=
  ⟨C2_acquire_raises_on_bad_read.1 50 20,
    C2_acquire_raises_on_bad_read.2.2 conf0 envOk ⟨none, none, none, none⟩ rfl⟩

/-- C3 (counterexample): with the second channel failing, there is no
batch at all — the acquisition aborts with the `TypeError` and the cycle
produces only the bare-except print, so no N-entry batch with a sentinel
slot exists and the remaining channels are not acquired. -/
theorem C3_counterexample :
    exceptIsOk (acquireAll inpOneFail) = false ∧
    cycleBody conf0 inpOneFail envOk = [Event.printErrorCall] :=
  ⟨rfl, rfl⟩

/-- C3 (amended): when every channel succeeds the batch holds exactly one
reading per configured channel in the fixed pin order 2, 3, 4, 17; but any
failed channel aborts the whole acquisition with the `TypeError` — later
channels are not read and no sentinel-bearing batch is produced. -/
theorem C3_batch_shape :
    (∀ a b c d e f g h : ℚ,
      acquireAll ⟨some (a, b), some (c, d), some (e, f), some (g, h)⟩ =
        Except.ok [⟨strRound1 a, strRound1 b⟩, ⟨strRound1 c, strRound1 d⟩,
          ⟨strRound1 e, strRound1 f⟩, ⟨strRound1 g, strRound1 h⟩]) ∧
    (∀ inp : CycleInput,
      inp.pin2 = none ∨ inp.pin3 = none ∨ inp.pin4 = none ∨
        inp.pin17 = none →
      acquireAll inp = Except.error PyError.typeError) :=
  ⟨fun a b c d e f g h => acquireAll_ok a b c d e f g h,
    fun inp hf => acquireAll_fail inp hf⟩

/-- C3 (witness): the amended theorem at concrete cycles. -/
theorem C3_witness :
    acquireAll inpAllOk =
      Except.ok [⟨strRound1 50, strRound1 20⟩, ⟨strRound1 51, strRound1 21⟩,
        ⟨strRound1 52, strRound1 22⟩, ⟨strRound1 53, strRound1 23⟩] ∧
    acquireAll inpOneFail = Except.error PyError.typeError :=
  ⟨C3_batch_shape.1 50 20 51 21 52 22 53 23,
    C3_batch_shape.2 inpOneFail (Or.inr (Or.inl rfl))⟩

/-- C4: a broker-publish failure is caught by the generic except clause of
the same cycle: it is logged, the outer bare except is never reached, the
iteration still ends with `sleep(600)`, and the following cycle of the
loop begins only after that sleep event. -/
theorem C4_broker_failure_isolated (conf : Conf) (inp : CycleInput)
    (env : SinkEnv) (txt : String)
    (h2 : inp.pin2.isSome = true) (h3 : inp.pin3.isSome = true)
    (h4 : inp.pin4.isSome = true) (h17 : inp.pin17.isSome = true)
    (hl : env.logFail = none) (hb : env.brokerFail = some txt) :
    Event.logErrorCall ("generic exception: " ++ txt) ∈
      cycleBody conf inp env ∧
    Event.printErrorCall ∉ cycleBody conf inp env ∧
    (cycleBody conf inp env).getLast? = some (Event.sleepCall 600) ∧
    (∀ rest, loopRun conf ((inp, env) :: rest) =
      cycleBody conf inp env ++ loopRun conf rest) := by
  obtain ⟨p2, p3, p4, p17⟩ := inp
  rcases p2 with _ | ⟨a, b⟩
  · simp at h2
  rcases p3 with _ | ⟨c, d⟩
  · simp at h3
  rcases p4 with _ | ⟨e, f⟩
  · simp at h4
  rcases p17 with _ | ⟨g, h⟩
  · simp at h17
  refine ⟨?_, ?_, ?_, fun rest => rfl⟩ <;>
    rw [cycleBody_ok, innerTry_brokerFail conf env txt hl hb]
  · exact List.mem_cons_of_mem _
      (List.mem_cons_of_mem _ (List.mem_cons_self _ _))
  · simp
  · rfl

/-- C4 (witness): the theorem applied to the concrete fixture. -/
theorem C4_witness :
    Event.logErrorCall ("generic exception: " ++ "socket timeout") ∈
      cycleBody conf0 inpAllOk envBrokerFail ∧
    Event.printErrorCall ∉ cycleBody conf0 inpAllOk envBrokerFail ∧
    (cycleBody conf0 inpAllOk envBrokerFail).getLast? =
      some (Event.sleepCall 600) ∧
    (∀ rest, loopRun conf0 ((inpAllOk, envBrokerFail) :: rest) =
      cycleBody conf0 inpAllOk envBrokerFail ++ loopRun conf0 rest) :=
  C4_broker_failure_isolated conf0 inpAllOk envBrokerFail "socket timeout"
    rfl rfl rfl rfl rfl rfl

end DHTMonitor

namespace DHTMonitor

/-- C5 (counterexample): an iteration hit by the `TypeError` of a failed
read is caught and printed by the bare except, but the iteration contains
no sleep of any kind — the loop re-enters the next iteration with no pause
at all, refuting the claimed short pause. -/
theorem C5_counterexample :
    cycleBody conf0 inpOneFail envOk = [Event.printErrorCall] ∧
    (cycleBody conf0 inpOneFail envOk).filter isSleep = [] :=
  ⟨rfl, rfl⟩

/-- C5 (amended): every exception that escapes the cycle interior is
caught and printed by the bare except of the top-level loop, and the loop
runs on — each scheduled cycle contributes its events, no iteration is
empty, and there is no exit path — but when the exception reaches the
top-level handler the next iteration begins immediately, with no pause. -/
theorem C5_loop_never_dies :
    (∀ (conf : Conf) (inp : CycleInput) (env : SinkEnv),
      exceptIsOk (acquireAll inp) = false →
      cycleBody conf inp env = [Event.printErrorCall] ∧
      (cycleBody conf inp env).filter isSleep = []) ∧
    (∀ (conf : Conf) (steps : List (CycleInput × SinkEnv)),
      steps.length ≤ (loopRun conf steps).length) ∧
    (∀ (conf : Conf) (inp : CycleInput) (env : SinkEnv),
      cycleBody conf inp env ≠ []) := by
  refine ⟨?_, ?_, cycleBody_ne_nil⟩
  · intro conf inp env hbad
    obtain ⟨p2, p3, p4, p17⟩ := inp
    rcases p2 with _ | ⟨a, b⟩
    · exact ⟨rfl, rfl⟩
    rcases p3 with _ | ⟨c, d⟩
    · exact ⟨rfl, rfl⟩
    rcases p4 with _ | ⟨e, f⟩
    · exact ⟨rfl, rfl⟩
    rcases p17 with _ | ⟨g, h⟩
    · exact ⟨rfl, rfl⟩
    rw [acquireAll_ok] at hbad
    exact absurd hbad (by simp [exceptIsOk])
  · intro conf steps
    induction steps with
    | nil => simp [loopRun]
    | cons s rest ih =>
      have hne := cycleBody_ne_nil conf s.1 s.2
      have hpos : 1 ≤ (cycleBody conf s.1 s.2).length :=
        Nat.one_le_iff_ne_zero.2 (fun hz => hne (List.length_eq_zero.1 hz))
      calc (s :: rest).length = rest.length + 1 := by simp
        _ ≤ (loopRun conf rest).length + (cycleBody conf s.1 s.2).length := by
            omega
        _ = (loopRun conf (s :: rest)).length := by
            rw [loopRun]
            rw [List.length_append]
            omega

/-- C5 (witness): the amended theorem at a concrete failing cycle and a
concrete two-cycle schedule. -/
theorem C5_witness :
    (cycleBody conf0 inpOneFail envOk = [Event.printErrorCall] ∧
      (cycleBody conf0 inpOneFail envOk).filter isSleep = []) ∧
    ([(inpOneFail, envOk), (inpAllOk, envOk)] :
        List (CycleInput × SinkEnv)).length ≤
      (loopRun conf0 [(inpOneFail, envOk), (inpAllOk, envOk)]).length :=
  ⟨C5_loop_never_dies.1 conf0 inpOneFail envOk rfl,
    C5_loop_never_dies.2.1 conf0 [(inpOneFail, envOk), (inpAllOk, envOk)]⟩

end DHTMonitor

namespace DHTMonitor

/-- C7: every broker message published in a cycle carries `qos = 0` and
`retain = True`, every publish goes to the configured host and port with
the configured username/password pair, and a cycle makes at most one
publish call — all six messages travel over that single authenticated
connection. -/
theorem C7_publish_retained_qos0 (conf : Conf) (inp : CycleInput)
    (env : SinkEnv) :
    (∀ msgs hostname port auth,
      Event.publishCall msgs hostname port auth ∈ cycleBody conf inp env →
      (∀ m ∈ msgs, m.qos = 0 ∧ m.retain = true) ∧
      hostname = conf.mqtt_server ∧ port = conf.mqtt_port ∧
      auth = ⟨conf.mqtt_uname, conf.mqtt_pw⟩) ∧
    ((cycleBody conf inp env).filter isPublish).length ≤ 1 := by
  obtain ⟨p2, p3, p4, p17⟩ := inp
  rcases p2 with _ | ⟨a, b⟩
  · refine ⟨fun msgs hostname port auth hmem => ?_, Nat.zero_le 1⟩
    simp [cycleBody, getSensorData] at hmem
  rcases p3 with _ | ⟨c, d⟩
  · refine ⟨fun msgs hostname port auth hmem => ?_, Nat.zero_le 1⟩
    simp [cycleBody, getSensorData] at hmem
  rcases p4 with _ | ⟨e, f⟩
  · refine ⟨fun msgs hostname port auth hmem => ?_, Nat.zero_le 1⟩
    simp [cycleBody, getSensorData] at hmem
  rcases p17 with _ | ⟨g, h⟩
  · refine ⟨fun msgs hostname port auth hmem => ?_, Nat.zero_le 1⟩
    simp [cycleBody, getSensorData] at hmem
  rcases hl : env.logFail with _ | lf
  · rcases hb : env.brokerFail with _ | txt
    · rw [cycleBody_ok, innerTry_ok conf env hl hb]
      refine ⟨fun msgs hostname port auth hmem => ?_, Nat.le.refl⟩
      simp only [List.cons_append, List.nil_append, List.mem_cons,
        List.not_mem_nil, or_false] at hmem
      rcases hmem with hm | hm | hm
      · exact absurd hm (by simp)
      · rcases hm with ⟨rfl, rfl, rfl, rfl⟩
        refine ⟨?_, rfl, rfl, rfl⟩
        intro m hm
        simp only [cycleMsgs, List.mem_cons, List.not_mem_nil,
          or_false] at hm
        rcases hm with rfl | rfl | rfl | rfl | rfl | rfl <;> exact ⟨rfl, rfl⟩
      · exact absurd hm (by simp)
    · rw [cycleBody_ok, innerTry_brokerFail conf env txt hl hb]
      refine ⟨fun msgs hostname port auth hmem => ?_, Nat.le.refl⟩
      simp only [List.cons_append, List.nil_append, List.mem_cons,
        List.not_mem_nil, or_false] at hmem
      rcases hmem with hm | hm | hm | hm
      · exact absurd hm (by simp)
      · rcases hm with ⟨rfl, rfl, rfl, rfl⟩
        refine ⟨?_, rfl, rfl, rfl⟩
        intro m hm
        simp only [cycleMsgs, List.mem_cons, List.not_mem_nil,
          or_false] at hm
        rcases hm with rfl | rfl | rfl | rfl | rfl | rfl <;> exact ⟨rfl, rfl⟩
      · exact absurd hm (by simp)
      · exact absurd hm (by simp)
  · rw [cycleBody_ok, innerTry_logFail conf env lf hl]
    refine ⟨fun msgs hostname port auth hmem => ?_, Nat.zero_le 1⟩
    simp at hmem

/-- C7 (witness): the theorem at the concrete all-success cycle, with the
publish event of that cycle exhibited. -/
theorem C7_witness :
    (∀ m ∈ cycleMsgs (strRound1 20) (strRound1 21) (strRound1 51)
        (strRound1 22) (strRound1 52) (strRound1 23),
      m.qos = 0 ∧ m.retain = true) ∧
    ((cycleBody conf0 inpAllOk envOk).filter isPublish).length ≤ 1 := by
  have h := C7_publish_retained_qos0 conf0 inpAllOk envOk
  have hmem : Event.publishCall
      (cycleMsgs (strRound1 20) (strRound1 21) (strRound1 51)
        (strRound1 22) (strRound1 52) (strRound1 23))
      conf0.mqtt_server conf0.mqtt_port
      ⟨conf0.mqtt_uname, conf0.mqtt_pw⟩ ∈ cycleBody conf0 inpAllOk envOk :=
    List.mem_cons_of_mem _ (List.mem_cons_self _ _)
  exact ⟨(h.1 _ _ _ _ hmem).1, h.2⟩

/-- C8: with identical configuration and identical sensor values, the
outbound payloads of a clean cycle are fully determined — the trace is
exactly the logging request whose URL interpolates the eight formatted
fields in the fixed order, one authenticated publish of the six mapped
messages, and the sleep — so a second cycle over the same inputs yields a
byte-identical trace; no time-varying field exists in either payload. -/
theorem C8_idempotent_payloads (conf : Conf) (inp : CycleInput)
    (env env2 : SinkEnv) (a b c d e f g h : ℚ)
    (hinp : inp = ⟨some (a, b), some (c, d), some (e, f), some (g, h)⟩)
    (henv : env = ⟨none, none⟩) (henv2 : env2 = ⟨none, none⟩) :
    cycleBody conf inp env =
      [Event.urlopenCall (fieldURL conf (strRound1 b) (strRound1 a)
          (strRound1 d) (strRound1 c) (strRound1 f) (strRound1 e)
          (strRound1 h) (strRound1 g)),
       Event.publishCall (cycleMsgs (strRound1 b) (strRound1 d)
          (strRound1 c) (strRound1 f) (strRound1 e) (strRound1 h))
          conf.mqtt_server conf.mqtt_port ⟨conf.mqtt_uname, conf.mqtt_pw⟩,
       Event.sleepCall 600] ∧
    cycleBody conf inp env = cycleBody conf inp env2 := by
  subst hinp
  subst henv
  subst henv2
  exact ⟨rfl, rfl⟩

/-- C8 (witness): the theorem at the concrete all-success fixture. -/
theorem C8_witness :
    cycleBody conf0 inpAllOk envOk =
      [Event.urlopenCall (fieldURL conf0 (strRound1 20) (strRound1 50)
          (strRound1 21) (strRound1 51) (strRound1 22) (strRound1 52)
          (strRound1 23) (strRound1 53)),
       Event.publishCall (cycleMsgs (strRound1 20) (strRound1 21)
          (strRound1 51) (strRound1 22) (strRound1 52) (strRound1 23))
          conf0.mqtt_server conf0.mqtt_port
          ⟨conf0.mqtt_uname, conf0.mqtt_pw⟩,
       Event.sleepCall 600] ∧
    cycleBody conf0 inpAllOk envOk = cycleBody conf0 inpAllOk envOk :=
  C8_idempotent_payloads conf0 inpAllOk envOk envOk 50 20 51 21 52 22 53 23
    rfl rfl rfl

end DHTMonitor

namespace MprofiApiClient

/-- C9: `send` with exactly one stored message POSTs to the `send`
endpoint; with more than one it POSTs to the `sendbulk` endpoint; with an
empty payload it raises `ValueError` without issuing any request; and a
non-2xx HTTP response makes it raise (`MprofiAuthError`). -/
theorem C9_send_endpoints (c : Connector) (ref : Option String)
    (env : HttpOutcome) :
    (c.payload = [] →
      send c ref env = ⟨Except.error SendErr.valueError, c, none⟩) ∧
    (∀ m, c.payload = [m] → ∃ fp,
      (send c ref env).request = some (joinURL send_endpoint, fp)) ∧
    (∀ m1 m2 ms, c.payload = m1 :: m2 :: ms →
      (send c ref env).request =
        some (joinURL sendbulk_endpoint, FullPayload.bulk c.payload ref)) ∧
    (c.payload ≠ [] → env = HttpOutcome.httpError →
      (send c ref env).result = Except.error SendErr.mprofiAuthError) := by
  obtain ⟨tok, p, resp⟩ := c
  rcases p with _ | ⟨m, p2⟩
  · refine ⟨fun _ => rfl, fun m hp => absurd hp (by simp),
      fun m1 m2 ms hp => absurd hp (by simp), fun hne _ => absurd rfl hne⟩
  rcases p2 with _ | ⟨m2, ms⟩
  · refine ⟨fun hp => absurd hp (by simp), fun m1 hp => ?_,
      fun m1 m2 ms hp => absurd hp (by simp), fun _ henv => ?_⟩
    · refine ⟨FullPayload.single (match ref with
        | some r => { m with reference := some r }
        | none => m), ?_⟩
      rcases env with _ | _ | _ | rj
      · rfl
      · rfl
      · rfl
      · rcases hx : extractSingle rj with er | us <;>
          simp [send, afterPost, hx]
    · subst henv
      rfl
  · refine ⟨fun hp => absurd hp (by simp), fun m1 hp => absurd hp (by simp),
      fun m1 mb ms2 hp => ?_, fun _ henv => ?_⟩
    · rcases env with _ | _ | _ | rj
      · rfl
      · rfl
      · rfl
      · rcases hx : extractBulk rj with er | us
        · simp [send, afterPost, hx]
        · simp [send, afterPost, hx]
    · subst henv
      rfl

/-- C9 (witness): the theorem at one-, two- and zero-message connectors. -/
theorem C9_witness :
    send connEmpty none HttpOutcome.httpError =
      ⟨Except.error SendErr.valueError, connEmpty, none⟩ ∧
    (∃ fp, (send connOne none HttpOutcome.httpError).request =
      some (joinURL send_endpoint, fp)) ∧
    (send connTwo none HttpOutcome.httpError).request =
      some (joinURL sendbulk_endpoint,
        FullPayload.bulk connTwo.payload none) ∧
    (send connOne none HttpOutcome.httpError).result =
      Except.error SendErr.mprofiAuthError := by
  have he := C9_send_endpoints connEmpty none HttpOutcome.httpError
  have h1 := C9_send_endpoints connOne none HttpOutcome.httpError
  have h2 := C9_send_endpoints connTwo none HttpOutcome.httpError
  exact ⟨he.1 rfl, h1.2.1 msgA rfl, h2.2.2.1 msgA msgB [] rfl,
    h1.2.2.2 (by decide) rfl⟩

/-- C10 (counterexample): a connection failure during `send` of a single
message with a reference leaves the stored payload mutated — the aliased
`full_payload.update` wrote the reference into the stored message before
the POST — so the state is not what it was before the call although
`MprofiConnectionError` was raised. -/
theorem C10_counterexample :
    (send connOne (some "batch-ref") HttpOutcome.connError).result =
      Except.error SendErr.mprofiConnectionError ∧
    (send connOne (some "batch-ref") HttpOutcome.connError).state.payload ≠
      connOne.payload := by
  refine ⟨rfl, ?_⟩
  decide

/-- C10 (amended): `send` raises `ValueError` on an empty payload with the
state untouched; when the POST round trip raises, `response` is untouched
and `payload` is untouched except that a supplied reference has been
merged into the message when the payload held exactly one message; only a
fully successful send clears `payload` and sets `response` to the sent
messages updated with the ids the API returned. -/
theorem C10_send_state_transitions (c : Connector) (ref : Option String)
    (env : HttpOutcome) :
    (c.payload = [] →
      send c ref env = ⟨Except.error SendErr.valueError, c, none⟩) ∧
    (c.payload ≠ [] → env.isFail = true →
      (send c ref env).state = { c with payload := mergedPayload c ref } ∧
      (send c ref env).state.response = c.response ∧
      ∃ er, (send c ref env).result = Except.error er ∧
        (er = SendErr.mprofiConnectionError ∨
          er = SendErr.mprofiAuthError)) ∧
    (∀ rj us, c.payload ≠ [] → env = HttpOutcome.ok rj →
      extractFor c rj = Except.ok us →
      (send c ref env).result = Except.ok rj ∧
      (send c ref env).state.payload = [] ∧
      (send c ref env).state.response =
        zipUpdate (mergedPayload c ref) us) := by
  obtain ⟨tok, p, resp⟩ := c
  rcases p with _ | ⟨m, p2⟩
  · exact ⟨fun _ => rfl, fun hne _ => absurd rfl hne,
      fun rj us hne _ _ => absurd rfl hne⟩
  rcases p2 with _ | ⟨m2, ms⟩
  · refine ⟨fun hp => absurd hp (by simp), fun hne hfail => ?_,
      fun rj us hne henv hex => ?_⟩
    · rcases ref with _ | r <;> rcases env with _ | _ | _ | rj
      · exact ⟨rfl, rfl, SendErr.mprofiConnectionError, rfl, Or.inl rfl⟩
      · exact ⟨rfl, rfl, SendErr.mprofiAuthError, rfl, Or.inr rfl⟩
      · exact ⟨rfl, rfl, SendErr.mprofiConnectionError, rfl, Or.inl rfl⟩
      · simp [HttpOutcome.isFail] at hfail
      · exact ⟨rfl, rfl, SendErr.mprofiConnectionError, rfl, Or.inl rfl⟩
      · exact ⟨rfl, rfl, SendErr.mprofiAuthError, rfl, Or.inr rfl⟩
      · exact ⟨rfl, rfl, SendErr.mprofiConnectionError, rfl, Or.inl rfl⟩
      · simp [HttpOutcome.isFail] at hfail
    · subst henv
      simp only [extractFor] at hex
      rcases ref with _ | r <;> simp [send, afterPost, hex, mergedPayload]
  · refine ⟨fun hp => absurd hp (by simp), fun hne hfail => ?_,
      fun rj us hne henv hex => ?_⟩
    · rcases env with _ | _ | _ | rj
      · exact ⟨rfl, rfl, SendErr.mprofiConnectionError, rfl, Or.inl rfl⟩
      · exact ⟨rfl, rfl, SendErr.mprofiAuthError, rfl, Or.inr rfl⟩
      · exact ⟨rfl, rfl, SendErr.mprofiConnectionError, rfl, Or.inl rfl⟩
      · simp [HttpOutcome.isFail] at hfail
    · subst henv
      simp only [extractFor] at hex
      simp [send, afterPost, hex, mergedPayload]

/-- C10 (witness): the amended theorem at the failing single-message call
of the counterexample and at a successful bulk call. -/
theorem C10_witness :
    (send connOne (some "batch-ref") HttpOutcome.connError).state =
      { connOne with
        payload := mergedPayload connOne (some "batch-ref") } ∧
    (send connTwo none (HttpOutcome.ok rjBulk)).state.payload = [] ∧
    (send connTwo none (HttpOutcome.ok rjBulk)).state.response =
      zipUpdate (mergedPayload connTwo none) [⟨7⟩, ⟨8⟩] := by
  have h1 := C10_send_state_transitions connOne (some "batch-ref")
    HttpOutcome.connError
  have h2 := C10_send_state_transitions connTwo none (HttpOutcome.ok rjBulk)
  refine ⟨(h1.2.1 (by decide) rfl).1, ?_, ?_⟩
  · exact (h2.2.2 rjBulk [⟨7⟩, ⟨8⟩] (by decide) rfl rfl).2.1
  · exact (h2.2.2 rjBulk [⟨7⟩, ⟨8⟩] (by decide) rfl rfl).2.2

end MprofiApiClient
